import Mathlib

/-!
Shallow embedding of `src/main.rs` (a glium-based GPU rendering demo).

Modelling conventions:
* A `std::time::Duration` argument is represented by its `as_nanos()` value,
  a natural number of nanoseconds (`Nanos`).
* `f32` arithmetic is idealized as real arithmetic: `(delta.as_nanos() as f32).cos()`
  becomes `Real.cos (delta : ℝ)`.
* GPU-resident buffers (`VertexBuffer`, `IndexBuffer`, `Texture2d`) are modelled by
  their contents.  Reading a mapped vertex buffer (`self.vertices.read()`) can fail
  only through the graphics driver, an environment effect outside the program text;
  it is modelled as always succeeding, matching the value-level data flow of the code.
* `frame.draw(...)` is modelled as appending a description of the issued draw call
  to the frame.
-/

/-- Nanosecond count of a `std::time::Duration` (its `as_nanos()` value). -/
abbrev Nanos := ℕ

/-- Rust `struct Vertex { position: [f32; 2] }` with `f32` idealized as `ℝ`. -/
structure Vertex where
  position : ℝ × ℝ

/-- A compiled shader program, `glium::Program::from_source` keeping the two
source strings (brace characters escaped). -/
structure Program where
  vertex_shader_src : String
  fragment_shader_src : String

/-- Primitive type passed to the draw call; the program only uses
`PrimitiveType::TrianglesList`. -/
inductive PrimitiveType
  | trianglesList
deriving DecidableEq

/-- Vertex connectivity source of a draw call: `glium::index::NoIndices(prim)` or an
index buffer with its primitive type. -/
inductive IndexSource
  | noIndices (prim : PrimitiveType)
  | indexBuffer (prim : PrimitiveType) (indices : List ℕ)

/-- A 2D texture, modelled by its dimensions and RGBA byte content. -/
structure Texture2d where
  width : ℕ
  height : ℕ
  rgba : List ℕ

/-- Uniform bindings of a draw call: `EmptyUniforms`, or the single
`uniform! { image: &self.texture }` sampler binding. -/
inductive Uniforms
  | emptyUniforms
  | imageSampler (tex : Texture2d)

/-- Back-face culling mode of `glium::draw_parameters::DrawParameters`
(default: culling disabled). -/
inductive BackfaceCullingMode
  | cullingDisabled
  | cullClockwise
  | cullCounterClockwise
deriving DecidableEq

/-- The rasterizer state fields of `glium::draw_parameters::DrawParameters` that this
program can vary (viewport rectangle and culling mode); all other fields are never
touched by the program and are omitted. -/
structure DrawParameters where
  viewport : Option (ℕ × ℕ × ℕ × ℕ)
  backface_culling : BackfaceCullingMode

/-- The value `Default::default()` for `DrawParameters`: no viewport override, culling disabled. -/
def defaultDrawParameters : DrawParameters :=
  { viewport := none, backface_culling := BackfaceCullingMode.cullingDisabled }

/-- One issued draw call: the argument tuple of `frame.draw(...)`. -/
structure DrawCall where
  vertices : List Vertex
  indices : IndexSource
  program : Program
  uniforms : Uniforms
  params : DrawParameters

/-- The render target for one frame, recording the draw calls issued into it. -/
structure Frame where
  calls : List DrawCall

/-- Model of `frame.draw(...)`: issue one draw call into the frame. -/
def Frame.draw (f : Frame) (c : DrawCall) : Frame :=
  { calls := f.calls ++ [c] }

/-- Rust `struct RedTriangle { vertices: VertexBuffer<Vertex>, program: Program }`. -/
structure RedTriangle where
  vertices : List Vertex
  program : Program

/-- Vertex shader source of `RedTriangle::new` (braces escaped as `\x7b`/`\x7d`). -/
def redTriangleVertexShaderSrc : String :=
  "\n    #version 140\n\n    in vec2 position;\n\n    void main() \x7b\n        gl_Position = vec4(position, 0.0, 1.0);\n    \x7d\n"

/-- Fragment shader source of `RedTriangle::new` (braces escaped). -/
def redTriangleFragmentShaderSrc : String :=
  "\n    #version 140\n\n    out vec4 color;\n\n    void main() \x7b\n        color = vec4(1.0, 0.0, 0.0, 1.0);\n    \x7d\n"

/-- Model of `RedTriangle::new`: the three hardcoded vertices and the compiled shader pair.
The `facade` parameter only names the GPU context and carries no data. -/
noncomputable def RedTriangle.new : RedTriangle :=
  { vertices :=
      [ { position := (-0.5, -0.5) },
        { position := (0.0, 0.5) },
        { position := (0.5, -0.25) } ],
    program :=
      { vertex_shader_src := redTriangleVertexShaderSrc,
        fragment_shader_src := redTriangleFragmentShaderSrc } }

/-- Model of `RedTriangle::update`: read the vertex buffer, set `data[0].position[0]` to
`(delta.as_nanos() as f32).cos()`, and write the buffer back.  Returns `Ok(())`. -/
noncomputable def RedTriangle.update (self : RedTriangle) (delta : Nanos) :
    RedTriangle × Except String Unit :=
  let data := self.vertices
  let data :=
    match data with
    | [] => []
    | v :: rest => { position := (Real.cos (delta : ℝ), v.position.2) } :: rest
  ({ self with vertices := data }, Except.ok ())

/-- Fold `RedTriangle.update` over a list of per-call delta times. -/
noncomputable def RedTriangle.updateSeq (self : RedTriangle) (deltas : List Nanos) :
    RedTriangle :=
  deltas.foldl (fun t d => (t.update d).1) self

/-- X coordinate of vertex 0 of the triangle's vertex buffer. -/
noncomputable def RedTriangle.vertex0X (t : RedTriangle) : ℝ :=
  (t.vertices.headD { position := (0, 0) }).position.1

/-- Y coordinate of vertex 0 of the triangle's vertex buffer. -/
noncomputable def RedTriangle.vertex0Y (t : RedTriangle) : ℝ :=
  (t.vertices.headD { position := (0, 0) }).position.2

/-- Model of `RedTriangle::custom_render`: draw the vertex buffer with no index buffer
(`NoIndices(TrianglesList)`), the triangle's program, empty uniforms and the
caller-supplied parameters. -/
noncomputable def RedTriangle.custom_render (self : RedTriangle) (frame : Frame)
    (params : DrawParameters) : Frame :=
  frame.draw
    { vertices := self.vertices,
      indices := IndexSource.noIndices PrimitiveType.trianglesList,
      program := self.program,
      uniforms := Uniforms.emptyUniforms,
      params := params }

/-- Model of `RedTriangle::render`: `self.custom_render(frame, &Default::default())`. -/
noncomputable def RedTriangle.render (self : RedTriangle) (frame : Frame) : Frame :=
  self.custom_render frame defaultDrawParameters

/-- A decoded image (`image::DynamicImage` after `to_rgba8`): dimensions and RGBA bytes. -/
structure Image where
  width : ℕ
  height : ℕ
  rgba : List ℕ
deriving DecidableEq, Repr

/-- Image formats relevant to `image::ImageFormat` as used by `load_image`. -/
inductive ImageFormat
  | png
  | jpeg
  | gif
  | bmp
  | other
deriving DecidableEq

/-- Outcome of `load_image`: a decoded image, a propagated error, or an abort of the
process by the failed `assert_eq!`. -/
inductive LoadResult
  | ok (img : Image)
  | err (msg : String)
  | panicked
deriving DecidableEq, Repr

/-- Model of `load_image`: guess the format of the raw byte buffer, `assert_eq!` that it is
`Some(ImageFormat::Png)` (aborting otherwise), then decode.  Format guessing and
decoding are performed by the external `image` crate; they are passed in as
function parameters so the theorem quantifies over every collaborator behaviour. -/
def load_image (guess : List ℕ → Option ImageFormat)
    (decode : List ℕ → Except String Image) (raw_data : List ℕ) : LoadResult :=
  let format := guess raw_data
  if format = some ImageFormat.png then
    match decode raw_data with
    | Except.ok img => LoadResult.ok img
    | Except.error e => LoadResult.err e
  else
    LoadResult.panicked

/-- Rust `struct ImageQuad { vertices, indices, texture, program }`. -/
structure ImageQuad where
  vertices : List Vertex
  indices : List ℕ
  texture : Texture2d
  program : Program

/-- The index data of `ImageQuad::new`: `let data = [0u32, 1, 2, 0, 2, 3];`. -/
def imageQuadIndexData : List ℕ := [0, 1, 2, 0, 2, 3]

/-- Vertex shader source of `ImageQuad::new` (braces escaped). -/
def imageQuadVertexShaderSrc : String :=
  "\n    #version 430\n\n    in vec2 position;\n    \n    smooth out vec2 coords;\n    \n    void main() \x7b\n        gl_Position = vec4(position,0.0, 1.0); \n        coords = position;\n    \x7d\n        \n"

/-- Fragment shader source of `ImageQuad::new` (braces escaped). -/
def imageQuadFragmentShaderSrc : String :=
  "\n    #version 430\n\n    uniform sampler2D image;\n    \n    smooth in vec2 coords;\n    out vec4 frag_color;\n    \n    void main() \x7b\n        frag_color = texture(image, coords);\n    \x7d\n        \n"

/-- Texture construction of `ImageQuad::new`: `RawImage2d::from_raw_rgba` of the
image's RGBA bytes and dimensions, uploaded with auto-generated mipmaps. -/
def textureFromImage (img : Image) : Texture2d :=
  { width := img.width, height := img.height, rgba := img.rgba }

/-- Model of `ImageQuad::new`: the four hardcoded vertices, the six hardcoded indices, the
texture built from the image, and the compiled shader pair.  GPU allocation
failures (`context("no vertices")` etc.) are driver effects and modelled as absent. -/
noncomputable def ImageQuad.new (img : Image) : ImageQuad :=
  { vertices :=
      [ { position := (0.0, 0.0) },
        { position := (0.0, 1.0) },
        { position := (0.1, 1.0) },
        { position := (0.1, 0.0) } ],
    indices := imageQuadIndexData,
    texture := textureFromImage img,
    program :=
      { vertex_shader_src := imageQuadVertexShaderSrc,
        fragment_shader_src := imageQuadFragmentShaderSrc } }

/-- Model of `ImageQuad::update`: `Ok(())`, touching nothing. -/
noncomputable def ImageQuad.update (self : ImageQuad) (_delta : Nanos) :
    ImageQuad × Except String Unit :=
  (self, Except.ok ())

/-- Model of `ImageQuad::custom_render`: bind the texture as the `image` sampler uniform and
draw the vertex buffer through the index buffer with the caller's parameters. -/
noncomputable def ImageQuad.custom_render (self : ImageQuad) (frame : Frame)
    (params : DrawParameters) : Frame :=
  frame.draw
    { vertices := self.vertices,
      indices := IndexSource.indexBuffer PrimitiveType.trianglesList self.indices,
      program := self.program,
      uniforms := Uniforms.imageSampler self.texture,
      params := params }

/-- Model of `ImageQuad::render`: `self.custom_render(frame, &Default::default())`. -/
noncomputable def ImageQuad.render (self : ImageQuad) (frame : Frame) : Frame :=
  self.custom_render frame defaultDrawParameters

/-- The observable steps of one iteration of the `event_loop.run` closure in `main`.
`updateQuad` is a possible event of the vocabulary (the quad implements `update`)
so that its absence from the actual iteration is expressible. -/
inductive LoopEvent
  | computeDelta
  | clearColor
  | updateQuad
  | renderQuad
  | updateTriangle
  | renderTriangle
  | finishFrame
deriving DecidableEq, Repr

/-- The sequence of steps the `event_loop.run` closure performs on every iteration,
in program order: compute `delta = now - last_time`, clear the target,
`quad.render(&mut target)`, `inabox.update(delta)`, `inabox.render(&mut target)`,
`target.finish()`. -/
def frameIteration : List LoopEvent :=
  [ LoopEvent.computeDelta,
    LoopEvent.clearColor,
    LoopEvent.renderQuad,
    LoopEvent.updateTriangle,
    LoopEvent.renderTriangle,
    LoopEvent.finishFrame ]

/-! ### Helper lemmas about `RedTriangle.update` and `RedTriangle.updateSeq` -/

theorem RedTriangle.update_vertices_tail (t : RedTriangle) (d : Nanos) :
    ((t.update d).1).vertices.tail = t.vertices.tail := by
  obtain ⟨vs, p⟩ := t
  cases vs <;> rfl

theorem RedTriangle.update_vertex0Y (t : RedTriangle) (d : Nanos) :
    ((t.update d).1).vertex0Y = t.vertex0Y := by
  obtain ⟨vs, p⟩ := t
  cases vs <;> rfl

theorem RedTriangle.update_vertices_length (t : RedTriangle) (d : Nanos) :
    ((t.update d).1).vertices.length = t.vertices.length := by
  obtain ⟨vs, p⟩ := t
  cases vs <;> rfl

theorem RedTriangle.update_vertex0X_of_ne_nil (t : RedTriangle) (d : Nanos)
    (h : t.vertices ≠ []) : ((t.update d).1).vertex0X = Real.cos (d : ℝ) := by
  obtain ⟨vs, p⟩ := t
  cases vs with
  | nil => exact absurd rfl h
  | cons v rest => rfl

theorem RedTriangle.updateSeq_nil (t : RedTriangle) : t.updateSeq [] = t := rfl

theorem RedTriangle.updateSeq_cons (t : RedTriangle) (d : Nanos) (ds : List Nanos) :
    t.updateSeq (d :: ds) = ((t.update d).1).updateSeq ds := rfl

theorem RedTriangle.updateSeq_append (t : RedTriangle) (ds₁ ds₂ : List Nanos) :
    t.updateSeq (ds₁ ++ ds₂) = (t.updateSeq ds₁).updateSeq ds₂ := by
  simp [RedTriangle.updateSeq, List.foldl_append]

theorem RedTriangle.updateSeq_vertices_length (t : RedTriangle) (ds : List Nanos) :
    (t.updateSeq ds).vertices.length = t.vertices.length := by
  induction ds generalizing t with
  | nil => rfl
  | cons d ds ih =>
      rw [RedTriangle.updateSeq_cons, ih, RedTriangle.update_vertices_length]

/-! ### Claim theorems -/

/-- C1 (counterexample): the claim that after monotonically increasing deltas vertex
0's X equals the cosine of the *cumulative* elapsed nanoseconds is false.  With the
increasing delta sequence `[1, 2]` the code leaves X at `cos 2` (the last delta),
which differs from `cos (1 + 2)`. -/
theorem redTriangle_updateSeq_not_cos_of_sum :
    List.Chain' (· < ·) [(1 : Nanos), 2] ∧
    (RedTriangle.new.updateSeq [1, 2]).vertex0X ≠
      Real.cos ((([1, 2] : List Nanos).sum : ℝ)) := by
  constructor
  · norm_num [List.chain'_cons]
  · have hx : (RedTriangle.new.updateSeq [1, 2]).vertex0X = Real.cos ((2 : ℕ) : ℝ) := by
      simp [RedTriangle.updateSeq, RedTriangle.update, RedTriangle.new,
        RedTriangle.vertex0X]
    rw [hx]
    have h2 : ((2 : ℕ) : ℝ) = 2 := by norm_num
    have hsum : (([1, 2] : List Nanos).sum : ℝ) = 3 := by norm_num
    rw [h2, hsum]
    have h3pi : (3 : ℝ) ≤ Real.pi := le_of_lt Real.pi_gt_three
    have hlt : Real.cos 3 < Real.cos 2 :=
      Real.strictAntiOn_cos ⟨by norm_num, by linarith⟩ ⟨by norm_num, h3pi⟩ (by norm_num)
    exact ne_of_gt hlt

/-- C1 (amended): after any sequence of `update` calls, vertex 0's X coordinate is
the cosine of the nanosecond count of the *last* delta passed to `update` — a
function of the most recent delta only, not of cumulative elapsed time. -/
theorem redTriangle_updateSeq_vertex0X_eq_cos_last (deltas : List Nanos) (d : Nanos) :
    (RedTriangle.new.updateSeq (deltas ++ [d])).vertex0X = Real.cos (d : ℝ) := by
  have hne : (RedTriangle.new.updateSeq deltas).vertices ≠ [] := by
    intro hnil
    have hlen := RedTriangle.updateSeq_vertices_length RedTriangle.new deltas
    rw [hnil] at hlen
    simp [RedTriangle.new] at hlen
  rw [RedTriangle.updateSeq_append]
  exact RedTriangle.update_vertex0X_of_ne_nil _ d hne

/-- C2: a fresh triangle updated with delta 0 ns has vertex 0 X equal to
`cos 0 = 1`, and a subsequent update with delta 1 000 000 000 ns sets it to
`cos 1e9` (the cosine applied to the nanosecond count, `f32` idealized as `ℝ`,
so the value coincides exactly with the reference computation). -/
theorem redTriangle_update_zero_then_second :
    ((RedTriangle.new.update 0).1).vertex0X = 1 ∧
    (((RedTriangle.new.update 0).1.update 1000000000).1).vertex0X =
      Real.cos ((1000000000 : ℕ) : ℝ) := by
  constructor
  · simp [RedTriangle.update, RedTriangle.new, RedTriangle.vertex0X]
  · simp [RedTriangle.update, RedTriangle.new, RedTriangle.vertex0X]

/-- C3: any sequence of `update` calls leaves every vertex after vertex 0 (in
particular vertex 1 and vertex 2) unchanged, and leaves vertex 0's Y coordinate
unchanged — only vertex 0's X component is ever mutated. -/
theorem redTriangle_updateSeq_fixes_tail_and_y (t : RedTriangle) (deltas : List Nanos) :
    (t.updateSeq deltas).vertices.tail = t.vertices.tail ∧
    (t.updateSeq deltas).vertex0Y = t.vertex0Y := by
  induction deltas generalizing t with
  | nil => exact ⟨rfl, rfl⟩
  | cons d ds ih =>
      rw [RedTriangle.updateSeq_cons]
      obtain ⟨h1, h2⟩ := ih ((t.update d).1)
      exact ⟨h1.trans (RedTriangle.update_vertices_tail t d),
             h2.trans (RedTriangle.update_vertex0Y t d)⟩

/-- C4: for both drawables and every frame, `render` issues exactly the draw call
of `custom_render` with a default-constructed parameter set. -/
theorem render_eq_custom_render_default :
    (∀ (t : RedTriangle) (frame : Frame),
        t.render frame = t.custom_render frame defaultDrawParameters) ∧
    (∀ (q : ImageQuad) (frame : Frame),
        q.render frame = q.custom_render frame defaultDrawParameters) :=
  ⟨fun _ _ => rfl, fun _ _ => rfl⟩

/-- C5 (counterexample): the claim that each iteration calls `update` on each
renderable before calling `render` on each renderable is false: the quad's
`update` is never invoked in the loop body at all, and the quad is rendered
before the triangle's `update`. -/
theorem frameIteration_violates_update_before_render :
    LoopEvent.updateQuad ∉ frameIteration ∧
    frameIteration.indexOf LoopEvent.renderQuad <
      frameIteration.indexOf LoopEvent.updateTriangle := by
  constructor
  · decide
  · decide

/-- C5 (amended): each iteration computes the delta time first, then clears and
renders the quad (whose `update` is never called), then updates the triangle,
then renders the triangle, and finally presents the frame; so only the triangle's
`update` precedes its `render` within a frame. -/
theorem frameIteration_order :
    frameIteration.indexOf LoopEvent.computeDelta = 0 ∧
    frameIteration.indexOf LoopEvent.renderQuad <
      frameIteration.indexOf LoopEvent.updateTriangle ∧
    frameIteration.indexOf LoopEvent.updateTriangle <
      frameIteration.indexOf LoopEvent.renderTriangle ∧
    frameIteration.getLast? = some LoopEvent.finishFrame ∧
    LoopEvent.updateQuad ∉ frameIteration := by
  refine ⟨?_, ?_, ?_, ?_, ?_⟩ <;> decide

/-- C6: the buffered quad's index buffer is exactly `[0, 1, 2, 0, 2, 3]`; every
index is a valid reference into the 4-vertex buffer and the six indices form two
triangles of the triangle list. -/
theorem imageQuad_indices_two_triangles (img : Image) :
    (ImageQuad.new img).indices = imageQuadIndexData ∧
    imageQuadIndexData = [0, 1, 2, 0, 2, 3] ∧
    (∀ i ∈ imageQuadIndexData, i < 4) ∧
    imageQuadIndexData.length = 2 * 3 :=
  ⟨rfl, rfl, by decide, rfl⟩

/-- C7: whatever the external format guesser and decoder do, a buffer whose guessed
format is not PNG makes `load_image` abort at the `assert_eq!`; it never decodes. -/
theorem load_image_rejects_non_png (guess : List ℕ → Option ImageFormat)
    (decode : List ℕ → Except String Image) (raw_data : List ℕ)
    (h : guess raw_data ≠ some ImageFormat.png) :
    load_image guess decode raw_data = LoadResult.panicked := by
  simp [load_image, h]

/-- Witness for C7 at a concrete collaborator and buffer: a guesser that recognizes
no format, an always-failing decoder, and the empty buffer. -/
theorem load_image_rejects_non_png_witness :
    (fun _ : List ℕ => (none : Option ImageFormat)) [] ≠ some ImageFormat.png ∧
    load_image (fun _ => none) (fun _ => Except.error "no decode") [] =
      LoadResult.panicked :=
  ⟨by simp, load_image_rejects_non_png (fun _ => none)
    (fun _ => Except.error "no decode") [] (by simp)⟩

/-- C8: the quad's `update` returns `Ok(())` and leaves the quad — vertex buffer,
index buffer, texture and program — unchanged, for every delta. -/
theorem imageQuad_update_noop (q : ImageQuad) (delta : Nanos) :
    q.update delta = (q, Except.ok ()) :=
  rfl

/-- C9: after any call to the triangle's `update`, vertex 0's X coordinate lies in
the closed band `[-1, 1]`: it is a cosine value. -/
theorem redTriangle_update_vertex0X_in_unit_band (t : RedTriangle) (delta : Nanos) :
    -1 ≤ ((t.update delta).1).vertex0X ∧ ((t.update delta).1).vertex0X ≤ 1 := by
  obtain ⟨vs, p⟩ := t
  cases vs with
  | nil =>
      constructor <;> (simp [RedTriangle.update, RedTriangle.vertex0X])
  | cons v rest =>
      constructor
      · simpa [RedTriangle.update, RedTriangle.vertex0X] using
          Real.neg_one_le_cos ((delta : ℝ))
      · simpa [RedTriangle.update, RedTriangle.vertex0X] using
          Real.cos_le_one ((delta : ℝ))

/-- C10: the quad's vertex buffer is exactly the four positions `(0, 0)`, `(0, 1)`,
`(0.1, 1)`, `(0.1, 0)` — spanning `0.1 = 1/10` units in X and one unit in Y — and
`update`, the only mutating operation, leaves it unchanged for every delta. -/
theorem imageQuad_vertices_fixed (img : Image) :
    (ImageQuad.new img).vertices =
      [ { position := (0.0, 0.0) },
        { position := (0.0, 1.0) },
        { position := (0.1, 1.0) },
        { position := (0.1, 0.0) } ] ∧
    (0.1 : ℝ) = 1 / 10 ∧
    ∀ (delta : Nanos),
      (((ImageQuad.new img).update delta).1).vertices = (ImageQuad.new img).vertices :=
  ⟨rfl, by norm_num, fun _ => rfl⟩
